import Mathlib

/-!
Shallow embedding of the chat client in src/frontend/src/App.js: the
configured endpoint URLs, the join flow (joinChat), the websocket address
derivation (connectWebSocket), the inbound frame handler (ws.onmessage),
the close and error handlers, and the outbound path (sendMessage).
-/

/-- Model of a JavaScript value as it appears after JSON.parse, plus
`undef` for the value of an absent object property. -/
inductive JVal where
  | undef
  | null
  | bool (b : Bool)
  | num (n : Int)
  | str (s : String)
  | arr (elems : List JVal)
  | obj (fields : List (String × JVal))
deriving Repr

/-- Property lookup on a list of object fields: first matching key
(JSON.parse never produces duplicate keys), absent keys give `undef`. -/
def lookupField : List (String × JVal) → String → JVal
  | [], _ => JVal.undef
  | (k, v) :: rest, key => if k = key then v else lookupField rest key

/-- The ways the embedded ws.onmessage handler can throw: `parse` when
JSON.parse throws on invalid JSON, `typeErr` when property access on
null or undefined throws a TypeError, or when the spread of a
non-iterable previous log throws. -/
inductive JsErr where
  | parse
  | typeErr
deriving Repr, DecidableEq

/-- JavaScript property access `v.key`: throws a TypeError on null and
undefined, is a field lookup on objects, and yields `undef` for the
absent property on every other (auto-boxed) value. Index and length
properties of arrays and strings are not modelled: the handler never
reads them. -/
def getField (v : JVal) (key : String) : Except JsErr JVal :=
  match v with
  | JVal.undef => Except.error JsErr.typeErr
  | JVal.null => Except.error JsErr.typeErr
  | JVal.obj fields => Except.ok (lookupField fields key)
  | _ => Except.ok JVal.undef

/-- JavaScript strict equality of a value with a string literal, as used
by `switch (data.type)`: true exactly on that string. -/
def isStr (v : JVal) (s : String) : Bool :=
  match v with
  | JVal.str t => t = s
  | _ => false

/-- JavaScript iteration as used by the spread `[...prev, x]`: arrays
yield their elements, strings their characters, everything else throws. -/
def iterate : JVal → Option (List JVal)
  | JVal.arr xs => some xs
  | JVal.str s => some (s.data.map fun c => JVal.str (String.mk [c]))
  | _ => none

/-- The ws.onmessage handler of App.js. A raw inbound frame is modelled
post-parse: `none` is an invalid-JSON frame (JSON.parse throws), `some
data` the parsed value. The result is the new messages state, or the
exception that escaped the handler (in which case the state is
unchanged). Mirrors the source: `switch (data.type)` throws when data is
null (the valid JSON frame null) or undefined, history replaces the
state with data.messages, new_message appends data.message to the
spread of the previous state, user_joined and user_left only
console.log, the default case does nothing. -/
def onMessage (raw : Option JVal) (log : JVal) : Except JsErr JVal :=
  match raw with
  | none => Except.error JsErr.parse
  | some data =>
    match getField data "type" with
    | Except.error e => Except.error e
    | Except.ok t =>
      if isStr t "history" then
        match getField data "messages" with
        | Except.error e => Except.error e
        | Except.ok msgs => Except.ok msgs
      else if isStr t "new_message" then
        match getField data "message" with
        | Except.error e => Except.error e
        | Except.ok m =>
          match iterate log with
          | some xs => Except.ok (JVal.arr (xs ++ [m]))
          | none => Except.error JsErr.typeErr
      else if isStr t "user_joined" then
        Except.ok log
      else if isStr t "user_left" then
        Except.ok log
      else
        Except.ok log

/-- The effective transition of the messages state for one inbound frame:
a throw escapes the handler and leaves the state unchanged. -/
def applyFrame (raw : Option JVal) (log : JVal) : JVal :=
  match onMessage raw log with
  | Except.ok l => l
  | Except.error _ => log

/-- Processing a whole sequence of inbound frames in arrival order: the
browser keeps delivering frames even after a handler invocation threw. -/
def processFrames (log : JVal) : List (Option JVal) → JVal
  | [] => log
  | f :: fs => processFrames (applyFrame f log) fs

/-- A well-formed inbound frame, as the server protocol describes them. -/
inductive Frame where
  | history (msgs : List JVal)
  | new_message (m : JVal)
  | user_joined (u : String)
  | user_left (u : String)

/-- The JSON object a well-formed frame parses to. -/
def Frame.encode : Frame → JVal
  | Frame.history msgs => JVal.obj [("type", JVal.str "history"), ("messages", JVal.arr msgs)]
  | Frame.new_message m => JVal.obj [("type", JVal.str "new_message"), ("message", m)]
  | Frame.user_joined u => JVal.obj [("type", JVal.str "user_joined"), ("username", JVal.str u)]
  | Frame.user_left u => JVal.obj [("type", JVal.str "user_left"), ("username", JVal.str u)]

/-- The payloads of the new_message frames of a sequence, in order. -/
def newMsgs : List Frame → List JVal
  | [] => []
  | Frame.history _ :: fs => newMsgs fs
  | Frame.new_message m :: fs => m :: newMsgs fs
  | Frame.user_joined _ :: fs => newMsgs fs
  | Frame.user_left _ :: fs => newMsgs fs

/-- The log the spec predicts when the sequence contains a history frame:
the payload of the last history frame followed by the payloads of the
new_message frames after it; `none` when no history frame occurs. -/
def claimedLog : List Frame → Option (List JVal)
  | [] => none
  | Frame.history msgs :: fs => some ((claimedLog fs).getD (msgs ++ newMsgs fs))
  | Frame.new_message _ :: fs => claimedLog fs
  | Frame.user_joined _ :: fs => claimedLog fs
  | Frame.user_left _ :: fs => claimedLog fs

/-- Reference recursion for the log: history replaces, new_message
appends, presence frames do nothing. -/
def specRun (init : List JVal) : List Frame → List JVal
  | [] => init
  | Frame.history msgs :: fs => specRun msgs fs
  | Frame.new_message m :: fs => specRun (init ++ [m]) fs
  | Frame.user_joined _ :: fs => specRun init fs
  | Frame.user_left _ :: fs => specRun init fs

lemma applyFrame_history (msgs : List JVal) (log : JVal) :
    applyFrame (some (Frame.encode (Frame.history msgs))) log = JVal.arr msgs := rfl

lemma applyFrame_new_message (m : JVal) (xs : List JVal) :
    applyFrame (some (Frame.encode (Frame.new_message m))) (JVal.arr xs)
      = JVal.arr (xs ++ [m]) := rfl

lemma applyFrame_user_joined (u : String) (log : JVal) :
    applyFrame (some (Frame.encode (Frame.user_joined u))) log = log := rfl

lemma applyFrame_user_left (u : String) (log : JVal) :
    applyFrame (some (Frame.encode (Frame.user_left u))) log = log := rfl

lemma processFrames_encode (fs : List Frame) (init : List JVal) :
    processFrames (JVal.arr init) (fs.map fun f => some (Frame.encode f))
      = JVal.arr (specRun init fs) := by
  induction fs generalizing init with
  | nil => rfl
  | cons f fs ih =>
    cases f with
    | history msgs =>
      simpa [processFrames, applyFrame_history, specRun] using ih msgs
    | new_message m =>
      simpa [processFrames, applyFrame_new_message, specRun] using ih (init ++ [m])
    | user_joined u =>
      simpa [processFrames, applyFrame_user_joined, specRun] using ih init
    | user_left u =>
      simpa [processFrames, applyFrame_user_left, specRun] using ih init

lemma specRun_no_history (fs : List Frame) (init : List JVal)
    (h : claimedLog fs = none) : specRun init fs = init ++ newMsgs fs := by
  induction fs generalizing init with
  | nil => simp [specRun, newMsgs]
  | cons f fs ih =>
    cases f with
    | history msgs => simp [claimedLog] at h
    | new_message m =>
      rw [claimedLog] at h
      rw [specRun, newMsgs, ih _ h, List.append_assoc]
      rfl
    | user_joined u =>
      rw [claimedLog] at h
      rw [specRun, newMsgs, ih _ h]
    | user_left u =>
      rw [claimedLog] at h
      rw [specRun, newMsgs, ih _ h]

lemma specRun_claimed (fs : List Frame) (init l : List JVal)
    (h : claimedLog fs = some l) : specRun init fs = l := by
  induction fs generalizing init l with
  | nil => simp [claimedLog] at h
  | cons f fs ih =>
    cases f with
    | history msgs =>
      rw [claimedLog] at h
      cases hc : claimedLog fs with
      | some l2 =>
        rw [hc, Option.getD_some] at h
        injection h with h
        rw [specRun, ih msgs l2 hc, h]
      | none =>
        rw [hc, Option.getD_none] at h
        injection h with h
        rw [specRun, specRun_no_history fs msgs hc, h]
    | new_message m =>
      rw [claimedLog] at h
      exact ih (init ++ [m]) l h
    | user_joined u =>
      rw [claimedLog] at h
      exact ih init l h
    | user_left u =>
      rw [claimedLog] at h
      exact ih init l h

/-- JavaScript String.prototype.trim, modelled over the character list:
removes leading and trailing whitespace. -/
def jsTrim (s : String) : String :=
  String.mk (((s.data.dropWhile Char.isWhitespace).reverse.dropWhile Char.isWhitespace).reverse)

/-- Whether the string s starts with the string p, over character lists. -/
def strStartsWith (s p : String) : Bool := p.data.isPrefixOf s.data

/-- Whether the string s ends with the string p, over character lists. -/
def strEndsWith (s p : String) : Bool := p.data.isSuffixOf s.data

/-- Drop the first n characters of s. -/
def strDrop (s : String) (n : Nat) : String := String.mk (s.data.drop n)

/-- Drop the last n characters of s. -/
def strDropRight (s : String) (n : Nat) : String :=
  String.mk (s.data.take (s.data.length - n))

/-- API_URL.replace of the leading scheme, the regex matching http:// or
https:// at the start of the string. -/
def stripScheme (s : String) : String :=
  if strStartsWith s "https://" then strDrop s 8
  else if strStartsWith s "http://" then strDrop s 7
  else s

/-- API_URL.replace of a single trailing slash. -/
def stripTrailingSlash (s : String) : String :=
  if strEndsWith s "/" then strDropRight s 1 else s

/-- The WS_URL constant of App.js: the API URL with scheme and trailing
slash removed. -/
def wsUrl (apiUrl : String) : String := stripTrailingSlash (stripScheme apiUrl)

/-- The wsProtocol local of connectWebSocket: wss when API_URL starts
with https, ws otherwise. -/
def wsProtocol (apiUrl : String) : String :=
  if strStartsWith apiUrl "https" then "wss" else "ws"

/-- The address connectWebSocket opens: note it interpolates the raw
`username` state, not `username.trim()`. -/
def wsAddress (apiUrl username : String) : String :=
  wsProtocol apiUrl ++ "://" ++ wsUrl apiUrl ++ "/ws/" ++ username

/-- The pieces of React state of the App component that the send and
connection handlers read and write, plus whether the socket state is
non-null (JS truthiness of `socket`). -/
structure ClientState where
  username : String
  isJoined : Bool
  messages : JVal
  inputMessage : String
  socketExists : Bool
  isConnected : Bool

/-- The sendMessage function of App.js: when the trimmed input is
non-empty, the socket is non-null and isConnected holds, it sends one
frame of tag message with the trimmed content and clears the input;
otherwise it does nothing. Returns the new state and the list of frames
passed to socket.send. -/
def sendMessage (s : ClientState) : ClientState × List JVal :=
  if jsTrim s.inputMessage ≠ "" ∧ s.socketExists = true ∧ s.isConnected = true then
    ({ s with inputMessage := "" },
     [JVal.obj [("type", JVal.str "message"), ("content", JVal.str (jsTrim s.inputMessage))]])
  else (s, [])

/-- The ws.onclose handler: sets isConnected to false. The second
component lists the addresses of any websocket connections the handler
opens: it opens none. -/
def wsOnClose (s : ClientState) : ClientState × List String :=
  ({ s with isConnected := false }, [])

/-- The ws.onerror handler: it only calls console.error and changes no
state, and opens no websocket connection. -/
def wsOnError (s : ClientState) : ClientState × List String := (s, [])

/-- Outcome of an axios request: a 2xx response, an error carrying a
response with a status code, or an error with no response (network
fault). -/
inductive HttpErr where
  | status (code : Nat)
  | network
deriving Repr, DecidableEq

/-- The 404 test of joinChat: error.response exists and
error.response.status === 404. -/
def is404 : HttpErr → Bool
  | HttpErr.status 404 => true
  | _ => false

/-- Observable outcome of one joinChat call: the usernames sent in GET
lookups and POST create requests, whether setIsJoined(true) ran, the
websocket addresses opened by connectWebSocket, and whether an exception
escaped joinChat (an unhandled promise rejection). -/
structure JoinResult where
  getRequests : List String
  postRequests : List String
  joined : Bool
  wsConnections : List String
  threw : Bool
deriving Repr, DecidableEq

/-- The joinChat function of App.js, parameterised by the outcomes of
the GET lookup and the POST create. Empty trimmed username: nothing
happens. Lookup ok: join and connect. Lookup error with response status
404: POST the trimmed username, then join and connect (a failing POST
rejects out of joinChat). Any other lookup error: console.error only.
connectWebSocket interpolates the raw username into the address. -/
def joinChat (username : String) (lookup create : Except HttpErr Unit)
    (apiUrl : String) : JoinResult :=
  if jsTrim username ≠ "" then
    match lookup with
    | Except.ok _ =>
      { getRequests := [jsTrim username], postRequests := [], joined := true,
        wsConnections := [wsAddress apiUrl username], threw := false }
    | Except.error e =>
      if is404 e then
        match create with
        | Except.ok _ =>
          { getRequests := [jsTrim username], postRequests := [jsTrim username], joined := true,
            wsConnections := [wsAddress apiUrl username], threw := false }
        | Except.error _ =>
          { getRequests := [jsTrim username], postRequests := [jsTrim username], joined := false,
            wsConnections := [], threw := true }
      else
        { getRequests := [jsTrim username], postRequests := [], joined := false,
          wsConnections := [], threw := false }
  else
    { getRequests := [], postRequests := [], joined := false,
      wsConnections := [], threw := false }

/-- C1: for every sequence of well-formed inbound frames containing a
history frame, the log after processing equals the payload of the last
history frame followed by the message payloads of the new_message frames
after it, in arrival order; user_joined and user_left frames never change
the log. -/
theorem claim_C1_stream_replay (fs : List Frame) (init l : List JVal)
    (u : String) (log : JVal) (h : claimedLog fs = some l) :
    processFrames (JVal.arr init) (fs.map fun f => some (Frame.encode f)) = JVal.arr l
    ∧ applyFrame (some (Frame.encode (Frame.user_joined u))) log = log
    ∧ applyFrame (some (Frame.encode (Frame.user_left u))) log = log :=
  ⟨by rw [processFrames_encode, specRun_claimed fs init l h], rfl, rfl⟩

/-- Witness for C1: a history frame with one message followed by one
new_message frame yields exactly those two messages in order. -/
theorem claim_C1_stream_replay_witness :
    processFrames (JVal.arr [])
        ([Frame.history [JVal.str "a"], Frame.new_message (JVal.str "b")].map
          fun f => some (Frame.encode f))
      = JVal.arr [JVal.str "a", JVal.str "b"]
    ∧ applyFrame (some (Frame.encode (Frame.user_joined "bob"))) (JVal.arr []) = JVal.arr []
    ∧ applyFrame (some (Frame.encode (Frame.user_left "bob"))) (JVal.arr []) = JVal.arr [] :=
  claim_C1_stream_replay [Frame.history [JVal.str "a"], Frame.new_message (JVal.str "b")]
    [] [JVal.str "a", JVal.str "b"] "bob" (JVal.arr []) rfl

lemma getField_obj_of_ok_str {d : JVal} {k s : String}
    (h : getField d k = Except.ok (JVal.str s)) :
    ∃ fields, d = JVal.obj fields := by
  cases d with
  | obj fields => exact ⟨fields, rfl⟩
  | undef => exact absurd h (by simp [getField])
  | null => exact absurd h (by simp [getField])
  | bool b => exact absurd h (by simp [getField])
  | num n => exact absurd h (by simp [getField])
  | str t => exact absurd h (by simp [getField])
  | arr xs => exact absurd h (by simp [getField])

/-- C8: processing a frame whose type property is the string history
replaces the log wholesale with the frame's messages property, so
processing the same frame twice in a row yields the same log as
processing it once. -/
theorem claim_C8_history_idempotent (d : JVal) (log : JVal)
    (h : getField d "type" = Except.ok (JVal.str "history")) :
    applyFrame (some d) (applyFrame (some d) log) = applyFrame (some d) log := by
  obtain ⟨fields, rfl⟩ := getField_obj_of_ok_str h
  simp only [getField, Except.ok.injEq] at h
  simp [applyFrame, onMessage, getField, h, isStr]

/-- Witness for C8: replaying a concrete history frame twice on a
non-empty log equals replaying it once. -/
theorem claim_C8_history_idempotent_witness :
    applyFrame (some (Frame.encode (Frame.history [JVal.str "a"])))
        (applyFrame (some (Frame.encode (Frame.history [JVal.str "a"])))
          (JVal.arr [JVal.str "old"]))
      = applyFrame (some (Frame.encode (Frame.history [JVal.str "a"])))
          (JVal.arr [JVal.str "old"]) :=
  claim_C8_history_idempotent (Frame.encode (Frame.history [JVal.str "a"]))
    (JVal.arr [JVal.str "old"]) rfl

/-- C9: the handler performs no payload validation: every object frame
whose type property is history but whose messages property is absent
replaces the log with undefined, and every object frame whose type
property is new_message but whose message property is absent appends
undefined to the log, so the log is not guaranteed to remain a sequence
of well-formed message records. -/
theorem claim_C9_no_payload_validation (fields fields2 : List (String × JVal))
    (log : JVal) (xs : List JVal)
    (h1 : lookupField fields "type" = JVal.str "history")
    (h2 : lookupField fields "messages" = JVal.undef)
    (h3 : lookupField fields2 "type" = JVal.str "new_message")
    (h4 : lookupField fields2 "message" = JVal.undef) :
    applyFrame (some (JVal.obj fields)) log = JVal.undef
    ∧ applyFrame (some (JVal.obj fields2)) (JVal.arr xs)
      = JVal.arr (xs ++ [JVal.undef]) := by
  constructor
  · simp [applyFrame, onMessage, getField, h1, h2, isStr]
  · simp [applyFrame, onMessage, getField, h3, h4, isStr, iterate]

/-- Witness for C9: the minimal history frame with no messages property
wipes a non-empty log to undefined, and the minimal new_message frame
with no message property appends undefined. -/
theorem claim_C9_no_payload_validation_witness :
    applyFrame (some (JVal.obj [("type", JVal.str "history")]))
        (JVal.arr [JVal.str "old"]) = JVal.undef
    ∧ applyFrame (some (JVal.obj [("type", JVal.str "new_message")]))
        (JVal.arr [JVal.str "old"])
      = JVal.arr ([JVal.str "old"] ++ [JVal.undef]) :=
  claim_C9_no_payload_validation [("type", JVal.str "history")]
    [("type", JVal.str "new_message")] (JVal.arr [JVal.str "old"])
    [JVal.str "old"] rfl rfl rfl rfl

/-- C10: frame processing is deterministic: the resulting log is a
function of the initial log and the frame sequence alone, so two runs
over equal inputs produce identical logs. -/
theorem claim_C10_deterministic (log1 log2 : JVal) (fs1 fs2 : List (Option JVal))
    (hl : log1 = log2) (hf : fs1 = fs2) :
    processFrames log1 fs1 = processFrames log2 fs2 := by
  rw [hl, hf]

/-- Witness for C10: two runs over the same concrete history frame from
the same empty log agree. -/
theorem claim_C10_deterministic_witness :
    processFrames (JVal.arr []) [some (Frame.encode (Frame.history [JVal.str "a"]))]
      = processFrames (JVal.arr []) [some (Frame.encode (Frame.history [JVal.str "a"]))] :=
  claim_C10_deterministic (JVal.arr []) (JVal.arr [])
    [some (Frame.encode (Frame.history [JVal.str "a"]))]
    [some (Frame.encode (Frame.history [JVal.str "a"]))] rfl rfl

/-- Counterexample for C2: an invalid-JSON frame does raise an exception
out of the frame handler: JSON.parse throws before the switch runs, so
the handler result is the parse error, not a normal return with the log
unchanged. -/
theorem claim_C2_counterexample :
    onMessage none (JVal.arr []) = Except.error JsErr.parse
    ∧ onMessage none (JVal.arr []) ≠ Except.ok (JVal.arr []) :=
  ⟨rfl, fun h => Except.noConfusion h⟩

/-- C2 amended: a JSON-object frame with an unrecognized type tag leaves
the log unchanged, raises no exception, and does not prevent subsequent
frames from being processed; an invalid-JSON frame lets the JSON.parse
exception escape the handler, but still leaves the log unchanged and
does not prevent subsequent valid frames from being processed. -/
theorem claim_C2_malformed_frames (fields : List (String × JVal)) (log : JVal)
    (fs : List (Option JVal))
    (h1 : isStr (lookupField fields "type") "history" = false)
    (h2 : isStr (lookupField fields "type") "new_message" = false)
    (h3 : isStr (lookupField fields "type") "user_joined" = false)
    (h4 : isStr (lookupField fields "type") "user_left" = false) :
    (onMessage (some (JVal.obj fields)) log = Except.ok log
      ∧ processFrames log (some (JVal.obj fields) :: fs) = processFrames log fs)
    ∧ (onMessage none log = Except.error JsErr.parse
      ∧ applyFrame none log = log
      ∧ processFrames log (none :: fs) = processFrames log fs) := by
  have hd : applyFrame (some (JVal.obj fields)) log = log := by
    simp [applyFrame, onMessage, getField, h1, h2, h3, h4]
  refine ⟨⟨by simp [onMessage, getField, h1, h2, h3, h4], ?_⟩, rfl, rfl, rfl⟩
  rw [processFrames, hd]

/-- Witness for C2 amended: the frame with type tag unknown is a no-op
with no exception, and an invalid-JSON frame errors but leaves the log
alone and lets the following frames run. -/
theorem claim_C2_malformed_frames_witness :
    (onMessage (some (JVal.obj [("type", JVal.str "unknown")])) (JVal.arr [JVal.str "m"])
        = Except.ok (JVal.arr [JVal.str "m"])
      ∧ processFrames (JVal.arr [JVal.str "m"])
          [some (JVal.obj [("type", JVal.str "unknown")]),
           some (Frame.encode (Frame.new_message (JVal.str "n")))]
        = processFrames (JVal.arr [JVal.str "m"])
            [some (Frame.encode (Frame.new_message (JVal.str "n")))])
    ∧ (onMessage none (JVal.arr [JVal.str "m"]) = Except.error JsErr.parse
      ∧ applyFrame none (JVal.arr [JVal.str "m"]) = JVal.arr [JVal.str "m"]
      ∧ processFrames (JVal.arr [JVal.str "m"])
          [none, some (Frame.encode (Frame.new_message (JVal.str "n")))]
        = processFrames (JVal.arr [JVal.str "m"])
            [some (Frame.encode (Frame.new_message (JVal.str "n")))]) :=
  claim_C2_malformed_frames [("type", JVal.str "unknown")]
    (JVal.arr [JVal.str "m"])
    [some (Frame.encode (Frame.new_message (JVal.str "n")))] rfl rfl rfl rfl

/-- C3: when the trimmed input is empty, or the client is not connected,
sendMessage is a no-op: no outbound frame is sent and the whole state,
the message log and the pending input buffer included, is unchanged. -/
theorem claim_C3_submit_noop (s : ClientState)
    (h : jsTrim s.inputMessage = "" ∨ s.isConnected = false) :
    sendMessage s = (s, []) := by
  rcases h with h | h <;> simp [sendMessage, h]

/-- Witness for C3: submitting a whitespace-only input while connected
sends nothing and preserves the state. -/
theorem claim_C3_submit_noop_witness :
    sendMessage
        { username := "alice", isJoined := true, messages := JVal.arr [],
          inputMessage := "   ", socketExists := true, isConnected := true }
      = ({ username := "alice", isJoined := true, messages := JVal.arr [],
           inputMessage := "   ", socketExists := true, isConnected := true }, []) :=
  claim_C3_submit_noop
    { username := "alice", isJoined := true, messages := JVal.arr [],
      inputMessage := "   ", socketExists := true, isConnected := true }
    (Or.inl rfl)

/-- C4: when the trimmed input is non-empty and the connection is live (a
socket exists and isConnected holds), sendMessage emits exactly one
outbound frame, the JSON object of type message carrying the trimmed
content, appends nothing to the message log, and clears the pending
input buffer. -/
theorem claim_C4_submit_sends (s : ClientState)
    (h1 : jsTrim s.inputMessage ≠ "") (h2 : s.socketExists = true)
    (h3 : s.isConnected = true) :
    (sendMessage s).2
      = [JVal.obj [("type", JVal.str "message"),
                   ("content", JVal.str (jsTrim s.inputMessage))]]
    ∧ (sendMessage s).1.messages = s.messages
    ∧ (sendMessage s).1.inputMessage = "" := by
  simp [sendMessage, h1, h2, h3]

/-- Witness for C4: submitting the input " hello " while connected sends
the single frame with the trimmed content hello, leaves the log alone
and clears the input. -/
theorem claim_C4_submit_sends_witness :
    (sendMessage
        { username := "alice", isJoined := true, messages := JVal.arr [],
          inputMessage := " hello ", socketExists := true, isConnected := true }).2
      = [JVal.obj [("type", JVal.str "message"),
                   ("content", JVal.str (jsTrim " hello "))]]
    ∧ (sendMessage
        { username := "alice", isJoined := true, messages := JVal.arr [],
          inputMessage := " hello ", socketExists := true, isConnected := true }).1.messages
      = JVal.arr []
    ∧ (sendMessage
        { username := "alice", isJoined := true, messages := JVal.arr [],
          inputMessage := " hello ", socketExists := true, isConnected := true }).1.inputMessage
      = "" :=
  claim_C4_submit_sends
    { username := "alice", isJoined := true, messages := JVal.arr [],
      inputMessage := " hello ", socketExists := true, isConnected := true }
    (by decide) rfl rfl

/-- C5: joining with a username whose trim is empty makes no network call
and does not join; a lookup failing with response status 404 leads to
exactly one create request for the trimmed username, and when the create
succeeds the client joins; any other lookup failure aborts the attempt
with no create request, no join, and no retry of the single lookup. -/
theorem claim_C5_join_flow (u : String) (lookup create : Except HttpErr Unit)
    (apiUrl : String) (e : HttpErr) :
    (jsTrim u = "" → joinChat u lookup create apiUrl
        = { getRequests := [], postRequests := [], joined := false,
            wsConnections := [], threw := false })
    ∧ (jsTrim u ≠ "" → lookup = Except.error (HttpErr.status 404) →
        (joinChat u lookup create apiUrl).postRequests = [jsTrim u]
        ∧ (create = Except.ok () → (joinChat u lookup create apiUrl).joined = true))
    ∧ (jsTrim u ≠ "" → lookup = Except.error e → is404 e = false →
        (joinChat u lookup create apiUrl).postRequests = []
        ∧ (joinChat u lookup create apiUrl).joined = false
        ∧ (joinChat u lookup create apiUrl).getRequests = [jsTrim u]) := by
  refine ⟨fun h => by simp [joinChat, h], fun h hl => ?_, fun h hl h404 => ?_⟩
  · subst hl
    refine ⟨?_, fun hc => ?_⟩
    · cases create with
      | ok v => simp [joinChat, h, is404]
      | error e2 => simp [joinChat, h, is404]
    · subst hc
      simp [joinChat, h, is404]
  · subst hl
    simp [joinChat, h, h404]

/-- Witness for C5: username bob with a 404 lookup and a successful
create issues exactly one create request and joins. -/
theorem claim_C5_join_flow_witness :
    (joinChat "bob" (Except.error (HttpErr.status 404)) (Except.ok ())
        "http://localhost:8000").postRequests = [jsTrim "bob"]
    ∧ (joinChat "bob" (Except.error (HttpErr.status 404)) (Except.ok ())
        "http://localhost:8000").joined = true :=
  ⟨((claim_C5_join_flow "bob" (Except.error (HttpErr.status 404)) (Except.ok ())
      "http://localhost:8000" HttpErr.network).2.1 (by decide) rfl).1,
   ((claim_C5_join_flow "bob" (Except.error (HttpErr.status 404)) (Except.ok ())
      "http://localhost:8000" HttpErr.network).2.1 (by decide) rfl).2 rfl⟩

/-- C6 at its failing input: joining as the string " alice" (a leading
space) against the default endpoint registers the trimmed name alice
with the directory, but connectWebSocket derives the address from the
raw untrimmed username, so the connection address is not derived from
the username string that was registered. -/
theorem claim_C6_address_uses_raw_username :
    (joinChat " alice" (Except.error (HttpErr.status 404)) (Except.ok ())
        "http://localhost:8000").postRequests = ["alice"]
    ∧ (joinChat " alice" (Except.error (HttpErr.status 404)) (Except.ok ())
        "http://localhost:8000").wsConnections = ["ws://localhost:8000/ws/ alice"]
    ∧ wsAddress "http://localhost:8000" " alice" ≠ wsAddress "http://localhost:8000" "alice"
    ∧ wsProtocol "https://example.com" = "wss"
    ∧ wsProtocol "http://localhost:8000" = "ws" := by
  refine ⟨?_, ?_, ?_, rfl, rfl⟩ <;> decide

/-- Counterexample for C7: a transport error event does not transition
the client out of the Connected state: ws.onerror only logs, so a
connected state stays connected after an error event. -/
theorem claim_C7_counterexample :
    ({ username := "alice", isJoined := true, messages := JVal.arr [],
       inputMessage := "", socketExists := true,
       isConnected := true } : ClientState).isConnected = true
    ∧ (wsOnError
        { username := "alice", isJoined := true, messages := JVal.arr [],
          inputMessage := "", socketExists := true,
          isConnected := true }).1.isConnected = true :=
  ⟨rfl, rfl⟩

/-- C7 amended: on every transport close event the client transitions
out of the Connected state (the isConnected flag the renderer observes
becomes false) and opens no new connection; a transport error event only
logs, changing no state and opening no connection, so the transition out
of Connected happens only at the close event that follows; the client
never initiates an automatic reconnection from either handler. -/
theorem claim_C7_close_error (s : ClientState) :
    (wsOnClose s).1.isConnected = false
    ∧ (wsOnClose s).2 = []
    ∧ wsOnError s = (s, []) :=
  ⟨rfl, rfl, rfl⟩
